import Mathlib

/-!
# StreamDeck-AudioSwitcher: shallow embedding and verification

A shallow embedding of the core logic of the StreamDeck audio-switcher
plugin (`src/Sources/ButtonSettings.cpp`,
`src/Sources/AudioSwitcherStreamDeckPlugin.cpp`, `ButtonSettings.h`):

* the data model (`AudioDeviceInfo`, `HotkeyConfig`, `ButtonSettings`);
* the identity resolver (`FuzzifyInterface`, `GetVolatileID`);
* JSON (de)serialisation of settings, with legacy aliases, modelled over a
  typed blob shape (`HotkeyJson`, `ButtonSettingsJson`);
* the toggle controller (`KeyUpForAction`, `KeyDownForAction`,
  `UpdateState`, `OnDefaultDeviceChanged`, `FillButtonDeviceInfo`),
  with host/OS side effects reified as an `Effect` list;
* the hotkey key-name resolution of `TriggerHotkey`, both the Windows
  body (`TriggerHotkey`) and the macOS body (`TriggerHotkeyMac`), whose
  unguarded `std::stoi` is modelled as an `Except.error`.

External collaborators (the OS audio provider) are modelled by an
environment record `AudioEnv` supplying the device list, per-id device
state, and the current default device id.
-/

/-- Direction of an audio device (`AudioDeviceDirection` in the audio
library). -/
inductive AudioDeviceDirection
  | INPUT
  | OUTPUT
deriving DecidableEq, Repr

/-- Role of a default audio device (`AudioDeviceRole`). -/
inductive AudioDeviceRole
  | DEFAULT
  | COMMUNICATION
deriving DecidableEq, Repr

/-- Connection state of an audio device (`AudioDeviceState`). -/
inductive AudioDeviceState
  | CONNECTED
  | DEVICE_NOT_PRESENT
  | DEVICE_DISABLED
  | DEVICE_PRESENT_NO_CONNECTION
deriving DecidableEq, Repr

/-- One audio endpoint as last observed (`AudioDeviceInfo`). -/
structure AudioDeviceInfo where
  id : String := ""
  interfaceName : String := ""
  endpointName : String := ""
  displayName : String := ""
  direction : AudioDeviceDirection := .OUTPUT
  state : AudioDeviceState := .DEVICE_NOT_PRESENT
deriving DecidableEq, Repr

/-- Embedding of `DeviceMatchStrategy` from `ButtonSettings.h`. -/
inductive DeviceMatchStrategy
  | ID
  | Fuzzy
deriving DecidableEq, Repr

/-- Embedding of `HotkeyConfig` from `ButtonSettings.h`, with its C++ default member
initialisers. -/
structure HotkeyConfig where
  enabled : Bool := false
  ctrl : Bool := false
  alt : Bool := false
  shift : Bool := false
  win : Bool := false
  keyCode : String := ""
deriving DecidableEq, Repr

/-- Embedding of `ButtonSettings` from `ButtonSettings.h`, with its C++ default member
initialisers. -/
structure ButtonSettings where
  direction : AudioDeviceDirection := .INPUT
  role : AudioDeviceRole := .DEFAULT
  primaryDevice : AudioDeviceInfo := {}
  secondaryDevice : AudioDeviceInfo := {}
  matchStrategy : DeviceMatchStrategy := .ID
  primaryHotkey : HotkeyConfig := {}
  secondaryHotkey : HotkeyConfig := {}
deriving DecidableEq, Repr

/-- The external audio provider: `GetAudioDeviceList`,
`GetAudioDeviceState` and `GetDefaultAudioDeviceID` of the audio library,
as unconstrained environment data.  `deviceList` returns the (id, info)
pairs in provider enumeration order, as the C++ `std::map` iteration
does. -/
structure AudioEnv where
  deviceList : AudioDeviceDirection → List (String × AudioDeviceInfo)
  deviceState : String → AudioDeviceState
  defaultDevice : AudioDeviceDirection → AudioDeviceRole → String

/-- Line terminators that ECMAScript `.` does not match; a name containing
one makes the C++ `std::regex_match` in `FuzzifyInterface` fail, so the
name is returned unchanged. -/
def isLineTerminator (c : Char) : Bool :=
  c = '\n' ∨ c = '\r' ∨ c = (Char.ofNat 0x2028) ∨ c = (Char.ofNat 0x2029)

/-- Embedding of `FuzzifyInterface` (`ButtonSettings.cpp`): strip an optional leading
`"<digits>- "` ordinal prefix, implemented in C++ as
`regex_match(name, "^([0-9]+- )?(.+)$")` returning capture 2.  The
optional group can only consume the maximal leading digit run, and `(.+)`
requires the remainder to be non-empty. -/
def FuzzifyInterface (name : String) : String :=
  if name.toList.any isLineTerminator then
    name
  else
    let ds := name.toList.takeWhile Char.isDigit
    let rest := name.toList.dropWhile Char.isDigit
    if ds ≠ [] ∧ rest.take 2 = ['-', ' '] ∧ rest.drop 2 ≠ [] then
      String.mk (rest.drop 2)
    else
      name

/-- Embedding of `GetVolatileID` (`ButtonSettings.cpp`): resolve a configured device
descriptor to the currently valid device id. -/
def GetVolatileID (env : AudioEnv) (device : AudioDeviceInfo)
    (strategy : DeviceMatchStrategy) : String :=
  if device.id = "" then
    ""
  else if strategy = DeviceMatchStrategy.ID then
    device.id
  else if env.deviceState device.id = AudioDeviceState.CONNECTED then
    device.id
  else
    let fuzzyInterface := FuzzifyInterface device.interfaceName
    match (env.deviceList device.direction).find? (fun other =>
        decide (other.2.state = AudioDeviceState.CONNECTED ∧
          FuzzifyInterface other.2.interfaceName = fuzzyInterface ∧
          device.endpointName = other.2.endpointName)) with
    | some other => other.1
    | none => device.id

/-- Embedding of `ButtonSettings::VolatilePrimaryID`. -/
def ButtonSettings.VolatilePrimaryID (bs : ButtonSettings) (env : AudioEnv) :
    String :=
  GetVolatileID env bs.primaryDevice bs.matchStrategy

/-- Embedding of `ButtonSettings::VolatileSecondaryID`. -/
def ButtonSettings.VolatileSecondaryID (bs : ButtonSettings) (env : AudioEnv) :
    String :=
  GetVolatileID env bs.secondaryDevice bs.matchStrategy

/-- The Fuzzy-strategy resolution procedure as the specification words it
(§4.1 steps 1–5), for comparison with `GetVolatileID`. -/
def resolveFuzzySpec (env : AudioEnv) (descriptor : AudioDeviceInfo) :
    String :=
  if env.deviceState descriptor.id = AudioDeviceState.CONNECTED then
    descriptor.id
  else
    let norm := FuzzifyInterface descriptor.interfaceName
    match (env.deviceList descriptor.direction).find? (fun cand =>
        decide (cand.2.state = AudioDeviceState.CONNECTED ∧
          FuzzifyInterface cand.2.interfaceName = norm ∧
          cand.2.endpointName = descriptor.endpointName)) with
    | some cand => cand.1
    | none => descriptor.id

/-- The shape of a hotkey settings blob as seen by
`from_json(const json&, HotkeyConfig&)`: each field the decoder probes is
either absent (`none`) or present with a value of the type the decoder
reads. -/
structure HotkeyJson where
  enabled : Option Bool := none
  hotkeyEnabled : Option Bool := none
  ctrl : Option Bool := none
  hotkeyCtrl : Option Bool := none
  alt : Option Bool := none
  hotkeyAlt : Option Bool := none
  shift : Option Bool := none
  hotkeyShift : Option Bool := none
  win : Option Bool := none
  hotkeyWin : Option Bool := none
  keyCode : Option String := none
  hotkeyKey : Option String := none
deriving DecidableEq, Repr

/-- A device slot in a settings blob: either a bare string id or a full
descriptor object (`primary.is_string()` in `from_json` for
`ButtonSettings`). -/
inductive DeviceJson
  | str (id : String)
  | obj (device : AudioDeviceInfo)
deriving DecidableEq, Repr

/-- The shape of a button settings blob as seen by
`from_json(const json&, ButtonSettings&)`: canonical fields plus the
legacy `hotkey` alias. -/
structure ButtonSettingsJson where
  direction : Option AudioDeviceDirection := none
  role : Option AudioDeviceRole := none
  primary : Option DeviceJson := none
  secondary : Option DeviceJson := none
  matchStrategy : Option DeviceMatchStrategy := none
  primaryHotkey : Option HotkeyJson := none
  hotkey : Option HotkeyJson := none
  secondaryHotkey : Option HotkeyJson := none
deriving DecidableEq, Repr

/-- Embedding of `from_json(const json&, HotkeyConfig&)` (`ButtonSettings.cpp`): each
field falls back to its legacy alias, and is left untouched when both are
absent. -/
def from_json_HotkeyConfig (j : HotkeyJson) (hk : HotkeyConfig) :
    HotkeyConfig where
  enabled := match j.enabled with
    | some b => b
    | none => match j.hotkeyEnabled with
      | some b => b
      | none => hk.enabled
  ctrl := match j.ctrl with
    | some b => b
    | none => match j.hotkeyCtrl with
      | some b => b
      | none => hk.ctrl
  alt := match j.alt with
    | some b => b
    | none => match j.hotkeyAlt with
      | some b => b
      | none => hk.alt
  shift := match j.shift with
    | some b => b
    | none => match j.hotkeyShift with
      | some b => b
      | none => hk.shift
  win := match j.win with
    | some b => b
    | none => match j.hotkeyWin with
      | some b => b
      | none => hk.win
  keyCode := match j.keyCode with
    | some s => s
    | none => match j.hotkeyKey with
      | some s => s
      | none => hk.keyCode

/-- Embedding of `to_json(json&, const HotkeyConfig&)` (`ButtonSettings.cpp`): emit the
six canonical fields, never the legacy aliases. -/
def to_json_HotkeyConfig (hk : HotkeyConfig) : HotkeyJson :=
  { enabled := some hk.enabled
    ctrl := some hk.ctrl
    alt := some hk.alt
    shift := some hk.shift
    win := some hk.win
    keyCode := some hk.keyCode }

/-- Embedding of `from_json(const json&, ButtonSettings&)` (`ButtonSettings.cpp`): a
blob without `direction` is a no-op; otherwise each present field is
decoded, with `primary`/`secondary` accepting a bare id string and
`primaryHotkey` falling back to the legacy `hotkey` alias.  The nested
conversions (`bs.primaryHotkey = j.at(...)` etc.) decode into a fresh
default-constructed value, as nlohmann's implicit conversion does. -/
def from_json_ButtonSettings (j : ButtonSettingsJson) (bs : ButtonSettings) :
    ButtonSettings :=
  match j.direction with
  | none => bs
  | some dir =>
    { direction := dir
      role := match j.role with
        | some r => r
        | none => bs.role
      primaryDevice := match j.primary with
        | some (DeviceJson.str s) => { bs.primaryDevice with id := s }
        | some (DeviceJson.obj d) => d
        | none => bs.primaryDevice
      secondaryDevice := match j.secondary with
        | some (DeviceJson.str s) => { bs.secondaryDevice with id := s }
        | some (DeviceJson.obj d) => d
        | none => bs.secondaryDevice
      matchStrategy := match j.matchStrategy with
        | some m => m
        | none => bs.matchStrategy
      primaryHotkey := match j.primaryHotkey with
        | some hj => from_json_HotkeyConfig hj {}
        | none => match j.hotkey with
          | some hj => from_json_HotkeyConfig hj {}
          | none => bs.primaryHotkey
      secondaryHotkey := match j.secondaryHotkey with
        | some hj => from_json_HotkeyConfig hj {}
        | none => bs.secondaryHotkey }

/-- Embedding of `to_json(json&, const ButtonSettings&)` (`ButtonSettings.cpp`): emit
the seven canonical fields with full device descriptors; no legacy alias
is ever written. -/
def to_json_ButtonSettings (bs : ButtonSettings) : ButtonSettingsJson :=
  { direction := some bs.direction
    role := some bs.role
    primary := some (DeviceJson.obj bs.primaryDevice)
    secondary := some (DeviceJson.obj bs.secondaryDevice)
    matchStrategy := some bs.matchStrategy
    primaryHotkey := some (to_json_HotkeyConfig bs.primaryHotkey)
    secondaryHotkey := some (to_json_HotkeyConfig bs.secondaryHotkey) }

/-- The `SET_ACTION_ID` constant (`AudioSwitcherStreamDeckPlugin.cpp`). -/
def SET_ACTION_ID : String := "com.fredemmott.audiooutputswitch.set"

/-- The `TOGGLE_ACTION_ID` constant (`AudioSwitcherStreamDeckPlugin.cpp`). -/
def TOGGLE_ACTION_ID : String := "com.fredemmott.audiooutputswitch.toggle"

/-- Side effects on the host connection and the OS, reified:
`ESDConnectionManager::SetState`, `ShowAlertForContext`, `SetSettings`,
the audio library's `SetDefaultAudioDeviceID`, and `TriggerHotkey`. -/
inductive Effect
  | setState (state : Int) (context : String)
  | showAlert (context : String)
  | setSettings (settings : ButtonSettings) (context : String)
  | setDefaultDevice (direction : AudioDeviceDirection)
      (role : AudioDeviceRole) (id : String)
  | triggerHotkey (hotkey : HotkeyConfig)
deriving DecidableEq, Repr

/-- One entry of `mButtons`.  Modelled from the spec: the `Button` struct
of `AudioSwitcherStreamDeckPlugin.h` (not under `src/`) is the runtime
ButtonState `{actionKind, contextId, settings}` of §3, as used by
`button = {inAction, inContext}` and `button.settings`. -/
structure Button where
  action : String := ""
  context : String := ""
  settings : ButtonSettings := {}
deriving DecidableEq, Repr

/-- The `mButtons` collection, `std::map<std::string, Button>`, as an
association list in key order. -/
abbrev Buttons : Type := List (String × Button)

/-- Reading `mButtons[context]`: the stored entry, or a value-initialised
`Button` when absent. -/
def getButton (buttons : Buttons) (context : String) : Button :=
  (List.lookup context (buttons : List (String × Button))).getD {}

/-- Store into `mButtons[context]`: replace the entry in place, or append
a new one. -/
def setButton (buttons : Buttons) (context : String) (b : Button) :
    Buttons :=
  match buttons, context, b with
  | [], context, b => [(context, b)]
  | (k, old) :: rest, context, b =>
    if k = context then (context, b) :: rest
    else (k, old) :: setButton rest context b

/-- The payload of a key event: the optional `"settings"` object and the
integer `"state"` (`EPLJSONUtils::GetIntByName` defaults it to 0 when
absent, so it is carried directly). -/
structure KeyPayload where
  settings : Option ButtonSettingsJson := none
  state : Int := 0

/-- Embedding of `FillAudioDeviceInfo` (`AudioSwitcherStreamDeckPlugin.cpp`): backfill
a descriptor that has an id but no display name from the live device
list; the Bool reports whether a replacement happened. -/
def FillAudioDeviceInfo (env : AudioEnv) (di : AudioDeviceInfo) :
    AudioDeviceInfo × Bool :=
  if di.id = "" then
    (di, false)
  else if di.displayName ≠ "" then
    (di, false)
  else
    match List.lookup di.id (env.deviceList di.direction) with
    | none => (di, false)
    | some d => (d, true)

/-- Embedding of `AudioSwitcherStreamDeckPlugin::FillButtonDeviceInfo`: backfill both
slots of the given settings; if either slot was filled, emit
`SetSettings` with the updated settings for the context. -/
def FillButtonDeviceInfo (env : AudioEnv) (settings : ButtonSettings)
    (context : String) : ButtonSettings × List Effect :=
  let firstFill := FillAudioDeviceInfo env settings.primaryDevice
  let secondFill := FillAudioDeviceInfo env settings.secondaryDevice
  let settings' := { settings with
    primaryDevice := firstFill.1
    secondaryDevice := secondFill.1 }
  if firstFill.2 || secondFill.2 then
    (settings', [Effect.setSettings settings' context])
  else
    (settings', [])

/-- The target-device conditional of `KeyUpForAction` (line 132):
`(state != 0 || inAction == SET_ACTION_ID) ? VolatilePrimaryID()
: VolatileSecondaryID()`. -/
def pickTargetDeviceID (env : AudioEnv) (settings : ButtonSettings)
    (inAction : String) (state : Int) : String :=
  if state ≠ 0 ∨ inAction = SET_ACTION_ID then
    settings.VolatilePrimaryID env
  else
    settings.VolatileSecondaryID env

/-- The hotkey-slot conditional of `KeyUpForAction` (line 163):
`(state != 0 || inAction == SET_ACTION_ID) ? primaryHotkey
: secondaryHotkey`. -/
def pickTargetHotkey (settings : ButtonSettings) (inAction : String)
    (state : Int) : HotkeyConfig :=
  if state ≠ 0 ∨ inAction = SET_ACTION_ID then
    settings.primaryHotkey
  else
    settings.secondaryHotkey

/-- Embedding of `AudioSwitcherStreamDeckPlugin::KeyDownForAction`: reads `"state"`
from the payload and does nothing else. -/
def KeyDownForAction (buttons : Buttons) (inAction inContext : String)
    (inPayload : KeyPayload) (inDeviceID : String) : Buttons × List Effect :=
  let _state := inPayload.state
  (buttons, [])

/-- Embedding of `AudioSwitcherStreamDeckPlugin::KeyUpForAction`: decode the payload
settings into the button, backfill device info, pick the target slot
(inverted for toggles), then no-op / alert / idempotence-short-circuit /
switch-and-hotkey. -/
def KeyUpForAction (env : AudioEnv) (buttons : Buttons)
    (inAction inContext : String) (inPayload : KeyPayload)
    (inDeviceID : String) : Buttons × List Effect :=
  match inPayload.settings with
  | none => (buttons, [])
  | some blob =>
    let settings := from_json_ButtonSettings blob {}
    let buttons := setButton buttons inContext
      { getButton buttons inContext with settings := settings }
    let fill := FillButtonDeviceInfo env settings inContext
    let settings := fill.1
    let buttons := setButton buttons inContext
      { getButton buttons inContext with settings := settings }
    let state := inPayload.state
    let deviceID := pickTargetDeviceID env settings inAction state
    if deviceID = "" then
      (buttons, fill.2)
    else if env.deviceState deviceID ≠ AudioDeviceState.CONNECTED then
      (buttons, fill.2
        ++ (if inAction = SET_ACTION_ID then
              [Effect.setState 1 inContext] else [])
        ++ [Effect.showAlert inContext])
    else if inAction = SET_ACTION_ID ∧
        deviceID = env.defaultDevice settings.direction settings.role then
      (buttons, fill.2 ++ [Effect.setState state inContext])
    else
      let hotkeyToUse := pickTargetHotkey settings inAction state
      (buttons, fill.2
        ++ [Effect.setDefaultDevice settings.direction settings.role deviceID]
        ++ (if hotkeyToUse.enabled && hotkeyToUse.keyCode ≠ "" then
              [Effect.triggerHotkey hotkeyToUse] else []))

/-- Embedding of `AudioSwitcherStreamDeckPlugin::UpdateState`: recompute both volatile
ids and report the visual state (or an alert) for one button.
`mButtons[context]` may insert a default entry, mirrored by
`setButton`. -/
def UpdateState (env : AudioEnv) (buttons : Buttons) (context : String)
    (optionalDefaultDevice : String := "") : Buttons × List Effect :=
  let button := getButton buttons context
  let buttons := setButton buttons context button
  let action := button.action
  let settings := button.settings
  let activeDevice := if optionalDefaultDevice = "" then
      env.defaultDevice settings.direction settings.role
    else
      optionalDefaultDevice
  let primaryID := settings.VolatilePrimaryID env
  let secondaryID := settings.VolatileSecondaryID env
  if action = SET_ACTION_ID then
    (buttons,
      [Effect.setState (if activeDevice = primaryID then 0 else 1) context])
  else if activeDevice = primaryID then
    (buttons, [Effect.setState 0 context])
  else if activeDevice = secondaryID then
    (buttons, [Effect.setState 1 context])
  else
    (buttons, [Effect.showAlert context])

/-- Embedding of `AudioSwitcherStreamDeckPlugin::OnDefaultDeviceChanged`: for every
registered button whose settings match the changed direction and role,
run `UpdateState` with the new device id. -/
def OnDefaultDeviceChanged (env : AudioEnv) (buttons : Buttons)
    (direction : AudioDeviceDirection) (role : AudioDeviceRole)
    (device : String) : Buttons × List Effect :=
  buttons.foldl (fun acc entry =>
    if entry.2.settings.direction ≠ direction then acc
    else if entry.2.settings.role ≠ role then acc
    else
      let step := UpdateState env acc.1 entry.1 device
      (step.1, acc.2 ++ step.2)) (buttons, [])

/-- Embedding of `AudioSwitcherStreamDeckPlugin::WillAppearForAction`: register the
context with a fresh `Button`, decode the settings when present, then
reconcile the visual state and backfill device info. -/
def WillAppearForAction (env : AudioEnv) (buttons : Buttons)
    (inAction inContext : String) (inPayload : KeyPayload)
    (inDeviceID : String) : Buttons × List Effect :=
  let buttons := setButton buttons inContext
    { action := inAction, context := inContext }
  match inPayload.settings with
  | none => (buttons, [])
  | some blob =>
    let settings := from_json_ButtonSettings blob {}
    let buttons := setButton buttons inContext
      { action := inAction, context := inContext, settings := settings }
    let upd := UpdateState env buttons inContext
    let buttons := upd.1
    let fill := FillButtonDeviceInfo env settings inContext
    let buttons := setButton buttons inContext
      { getButton buttons inContext with settings := fill.1 }
    (buttons, upd.2 ++ fill.2)

/-- Windows virtual-key codes used by `TriggerHotkey`. -/
def VK_SHIFT : Nat := 0x10

/-- Virtual-key code of the Control key. -/
def VK_CONTROL : Nat := 0x11

/-- Virtual-key code of the Alt (menu) key. -/
def VK_MENU : Nat := 0x12

/-- Virtual-key code of the left Windows key. -/
def VK_LWIN : Nat := 0x5B

/-- Virtual-key code of the space bar. -/
def VK_SPACE : Nat := 0x20

/-- Virtual-key code of the Return key. -/
def VK_RETURN : Nat := 0x0D

/-- Virtual-key code of the Escape key. -/
def VK_ESCAPE : Nat := 0x1B

/-- Virtual-key code of the Tab key. -/
def VK_TAB : Nat := 0x09

/-- Virtual-key code of the F1 key; F1–F24 are consecutive. -/
def VK_F1 : Nat := 0x70

/-- The semantics of `std::stoi` on the function-key suffix in
`TriggerHotkey`: skip leading whitespace, accept an optional sign, then
require at least one digit; `none` models the `std::invalid_argument`
throw that the surrounding `try`/`catch` swallows. -/
def stoiOrNone (s : String) : Option Int :=
  let rest := s.toList.dropWhile fun c =>
    c = ' ' ∨ c = '\t' ∨ c = '\n' ∨ c = Char.ofNat 0x0b ∨
      c = Char.ofNat 0x0c ∨ c = '\r'
  let core := match rest with
    | '-' :: tl => some (true, tl.takeWhile Char.isDigit)
    | '+' :: tl => some (false, tl.takeWhile Char.isDigit)
    | tl => some (false, tl.takeWhile Char.isDigit)
  match core with
  | some (neg, ds) =>
    if ds = [] then
      none
    else
      let n : Int := Int.ofNat (ds.foldl (fun n c => 10 * n + (c.toNat - 48)) 0)
      some (if neg then -n else n)
  | none => none

/-- The key-name resolution of `TriggerHotkey` (Windows body, lines
330–483): a single character goes through `VkKeyScanA` (supplied by the
environment as `vkKeyScan`, returning -1 on failure and a scan code whose
low byte is taken otherwise); `"F<n>"` with at most 3 characters maps to
a function key when `1 ≤ n ≤ 24`; then the named keys `SPACE`,
`ENTER`/`RETURN`, `ESCAPE`/`ESC`, `TAB`; otherwise a multi-character name
starting with `A`–`Z` or `0`–`9` maps to that character's own code, and
anything else is left at 0 (not recognized). -/
def resolveVkCode (vkKeyScan : Char → Int) (keyCode : String) : Nat :=
  if keyCode.length = 1 then
    let scanCode := vkKeyScan (keyCode.toList.headD (Char.ofNat 0))
    if scanCode ≠ -1 then (scanCode.emod 256).toNat else 0
  else if keyCode.take 1 = "F" ∧ keyCode.length ≤ 3 then
    match stoiOrNone (keyCode.drop 1) with
    | some fKey => if 1 ≤ fKey ∧ fKey ≤ 24 then VK_F1 + (fKey - 1).toNat else 0
    | none => 0
  else if keyCode = "SPACE" then
    VK_SPACE
  else if keyCode = "ENTER" ∨ keyCode = "RETURN" then
    VK_RETURN
  else if keyCode = "ESCAPE" ∨ keyCode = "ESC" then
    VK_ESCAPE
  else if keyCode = "TAB" then
    VK_TAB
  else
    let key := keyCode.toList.headD (Char.ofNat 0)
    if ('A' ≤ key ∧ key ≤ 'Z') ∨ ('0' ≤ key ∧ key ≤ '9') then
      key.toNat
    else
      0

/-- One synthesized keyboard event: a virtual-key code and whether it is
the `KEYEVENTF_KEYUP` release. -/
structure KeyEvent where
  vk : Nat
  isRelease : Bool
deriving DecidableEq, Repr

/-- Embedding of `TriggerHotkey` (Windows body): when the hotkey is
enabled and has a key code that resolves to a nonzero virtual-key code,
press the configured modifiers in ctrl, alt, shift, win order, press the
key, then release the key and the modifiers in reverse order; otherwise
no input is sent at all. -/
def TriggerHotkey (vkKeyScan : Char → Int) (hotkey : HotkeyConfig) :
    List KeyEvent :=
  if ¬hotkey.enabled ∨ hotkey.keyCode = "" then
    []
  else
    let modifiers :=
      (if hotkey.ctrl then [VK_CONTROL] else [])
        ++ (if hotkey.alt then [VK_MENU] else [])
        ++ (if hotkey.shift then [VK_SHIFT] else [])
        ++ (if hotkey.win then [VK_LWIN] else [])
    let vkCode := resolveVkCode vkKeyScan hotkey.keyCode
    if vkCode ≠ 0 then
      let pressed := modifiers ++ [vkCode % 256]
      pressed.map (fun vk => { vk := vk, isRelease := false })
        ++ (pressed.reverse.map (fun vk => { vk := vk, isRelease := true }))
    else
      []

/-- The macOS virtual-key codes of F1–F12 used by the macOS body of
`TriggerHotkey` (the `fKeyCodes` array at line 529). -/
def fKeyCodesMac : List Nat :=
  [0x7A, 0x78, 0x63, 0x76, 0x60, 0x61, 0x62, 0x64, 0x65, 0x6D, 0x67, 0x6F]

/-- The key-name resolution of the macOS body of `TriggerHotkey` (lines
516–533): a single character `A`–`Z` maps to `0x00 + (key - 'A')`;
`"F<n>"` with at most 3 characters calls `std::stoi` on the suffix with
NO surrounding `try`/`catch`, so a non-numeric suffix raises
`std::invalid_argument` which escapes the function — modelled as
`Except.error`; anything else leaves the key code at 0. -/
def resolveMacKeyCode (keyCode : String) : Except String Nat :=
  if keyCode.length = 1 then
    let key := keyCode.toList.headD (Char.ofNat 0)
    Except.ok (if 'A' ≤ key ∧ key ≤ 'Z' then key.toNat - 65 else 0)
  else if keyCode.take 1 = "F" ∧ keyCode.length ≤ 3 then
    match stoiOrNone (keyCode.drop 1) with
    | none => Except.error "std::invalid_argument"
    | some fKey =>
      Except.ok (if 1 ≤ fKey ∧ fKey ≤ 12 then
        fKeyCodesMac.getD (fKey - 1).toNat 0
      else 0)
  else
    Except.ok 0

/-- Embedding of the macOS body of `TriggerHotkey` (lines 510–566): after
the shared enabled/non-empty guard, resolve the key name — propagating
the unguarded `std::stoi` exception — and, when the resolved code is
nonzero, post a key-down/key-up pair (modifiers ride along as event
flags). -/
def TriggerHotkeyMac (hotkey : HotkeyConfig) :
    Except String (List KeyEvent) :=
  if ¬hotkey.enabled ∨ hotkey.keyCode = "" then
    Except.ok []
  else
    match resolveMacKeyCode hotkey.keyCode with
    | Except.error e => Except.error e
    | Except.ok keyCode =>
      Except.ok (if keyCode ≠ 0 then
        [{ vk := keyCode, isRelease := false },
         { vk := keyCode, isRelease := true }]
      else [])

/-- An enabled hotkey whose function-key-shaped name `"FX"` has a
non-numeric suffix. -/
def hk7x : HotkeyConfig := { enabled := true, keyCode := "FX" }

/-- Live set of the specification's fuzzy-match scenario: one connected
output device `B` with interface name `Headset` and endpoint
`Speakers`. -/
def envC1 : AudioEnv where
  deviceList := fun d => match d with
    | AudioDeviceDirection.OUTPUT =>
      [("B", { id := "B", interfaceName := "Headset",
               endpointName := "Speakers",
               direction := AudioDeviceDirection.OUTPUT,
               state := AudioDeviceState.CONNECTED })]
    | AudioDeviceDirection.INPUT => []
  deviceState := fun id =>
    if id = "B" then AudioDeviceState.CONNECTED
    else AudioDeviceState.DEVICE_NOT_PRESENT
  defaultDevice := fun _ _ => "B"

/-- Descriptor of the fuzzy-match scenario: stale id `A`, interface name
carrying the OS ordinal prefix. -/
def devC1 : AudioDeviceInfo :=
  { id := "A", interfaceName := "3- Headset", endpointName := "Speakers",
    direction := AudioDeviceDirection.OUTPUT }

/-- A settings blob configuring output device `A` (with a display name,
so no backfill fires) under the exact-ID strategy. -/
def blob3 : ButtonSettingsJson :=
  { direction := some AudioDeviceDirection.OUTPUT
    primary := some (DeviceJson.obj
      { id := "A", displayName := "Speakers",
        direction := AudioDeviceDirection.OUTPUT })
    matchStrategy := some DeviceMatchStrategy.ID }

/-- The decoded (and trivially backfilled) form of `blob3`. -/
def s3 : ButtonSettings :=
  { direction := AudioDeviceDirection.OUTPUT
    primaryDevice := { id := "A", displayName := "Speakers",
                       direction := AudioDeviceDirection.OUTPUT }
    matchStrategy := DeviceMatchStrategy.ID }

/-- Environment in which device `A` is connected and already the default
for every direction and role. -/
def env3 : AudioEnv where
  deviceList := fun _ => []
  deviceState := fun _ => AudioDeviceState.CONNECTED
  defaultDevice := fun _ _ => "A"

/-- Key-up payload carrying `blob3` with reported visual state 1. -/
def payload3 : KeyPayload := { settings := some blob3, state := 1 }

/-- Settings with both slots configured under the exact-ID strategy. -/
def s4 : ButtonSettings :=
  { direction := AudioDeviceDirection.OUTPUT
    primaryDevice := { id := "P", direction := AudioDeviceDirection.OUTPUT }
    secondaryDevice := { id := "S", direction := AudioDeviceDirection.OUTPUT }
    matchStrategy := DeviceMatchStrategy.ID }

/-- Environment whose default output device `X` is neither configured
slot of `s4`. -/
def env4 : AudioEnv where
  deviceList := fun _ => []
  deviceState := fun _ => AudioDeviceState.CONNECTED
  defaultDevice := fun _ _ => "X"

/-- One registered Set-action button with settings `s4`. -/
def btns4 : Buttons :=
  [("c", { action := SET_ACTION_ID, context := "c", settings := s4 })]

/-- Environment in which no device is present at all. -/
def env5 : AudioEnv where
  deviceList := fun _ => []
  deviceState := fun _ => AudioDeviceState.DEVICE_NOT_PRESENT
  defaultDevice := fun _ _ => ""

/-- Key-up payload carrying `blob3` with reported visual state 1, for a
toggle button whose target is not connected. -/
def payload5 : KeyPayload := { settings := some blob3, state := 1 }

/-- A blob with no `direction` field but other fields present: decode
must be a complete no-op on it. -/
def blob6 : ButtonSettingsJson :=
  { role := some AudioDeviceRole.COMMUNICATION
    primary := some (DeviceJson.str "Z")
    matchStrategy := some DeviceMatchStrategy.Fuzzy }

/-- A non-default settings value used to observe that the no-op decode
touches nothing. -/
def bs6 : ButtonSettings :=
  { direction := AudioDeviceDirection.OUTPUT
    role := AudioDeviceRole.COMMUNICATION
    primaryDevice := { id := "old", displayName := "Old" }
    matchStrategy := DeviceMatchStrategy.Fuzzy
    primaryHotkey := { enabled := true, keyCode := "F1" } }

/-- A blob with `direction` present and everything else absent. -/
def blob6b : ButtonSettingsJson :=
  { direction := some AudioDeviceDirection.OUTPUT }

/-- A fully-populated canonical hotkey blob; the legacy aliases are also
present with different values, to be ignored by decode and absent from
re-encode. -/
def ph8 : HotkeyJson :=
  { enabled := some true, hotkeyEnabled := some false
    ctrl := some true, hotkeyCtrl := some false
    alt := some false, hotkeyAlt := some true
    shift := some true, hotkeyShift := some false
    win := some false, hotkeyWin := some true
    keyCode := some "F5", hotkeyKey := some "X" }

/-- A second fully-populated canonical hotkey blob. -/
def sh8 : HotkeyJson :=
  { enabled := some false
    ctrl := some false
    alt := some true
    shift := some false
    win := some true
    keyCode := some "SPACE" }

/-- A fully-populated canonical settings blob with full device
descriptors. -/
def blob8 : ButtonSettingsJson :=
  { direction := some AudioDeviceDirection.OUTPUT
    role := some AudioDeviceRole.COMMUNICATION
    primary := some (DeviceJson.obj
      { id := "A", interfaceName := "If1", endpointName := "Ep1",
        displayName := "Dev1", direction := AudioDeviceDirection.OUTPUT,
        state := AudioDeviceState.CONNECTED })
    secondary := some (DeviceJson.obj
      { id := "B", interfaceName := "If2", endpointName := "Ep2",
        displayName := "Dev2", direction := AudioDeviceDirection.OUTPUT,
        state := AudioDeviceState.DEVICE_DISABLED })
    matchStrategy := some DeviceMatchStrategy.Fuzzy
    primaryHotkey := some ph8
    secondaryHotkey := some sh8 }

/-- A live output device record that backfill can pick up. -/
def dev9 : AudioDeviceInfo :=
  { id := "A", interfaceName := "Iface", endpointName := "Spk",
    displayName := "Nice Name", direction := AudioDeviceDirection.OUTPUT,
    state := AudioDeviceState.CONNECTED }

/-- Environment exposing `dev9` in the output list. -/
def env9 : AudioEnv where
  deviceList := fun d => match d with
    | AudioDeviceDirection.OUTPUT => [("A", dev9)]
    | AudioDeviceDirection.INPUT => []
  deviceState := fun _ => AudioDeviceState.CONNECTED
  defaultDevice := fun _ _ => "A"

/-- Settings whose primary descriptor has an id but no display name. -/
def st9 : ButtonSettings :=
  { direction := AudioDeviceDirection.OUTPUT
    primaryDevice := { id := "A", direction := AudioDeviceDirection.OUTPUT } }

/-- A `VkKeyScanA` stand-in that recognizes no character. -/
def vkScan7 : Char → Int := fun _ => -1

/-- An enabled hotkey whose key name resolves to nothing. -/
def hk7 : HotkeyConfig := { enabled := true, ctrl := true, keyCode := "!!" }

/-- The canonical subfields of a hotkey blob, as a tuple, for field-wise
round-trip comparison. -/
def HotkeyJson.canon (h : HotkeyJson) :
    Option Bool × Option Bool × Option Bool × Option Bool × Option Bool ×
      Option String :=
  (h.enabled, h.ctrl, h.alt, h.shift, h.win, h.keyCode)

/-- A hotkey blob carries none of the legacy alias fields. -/
def HotkeyJson.noLegacy (h : HotkeyJson) : Prop :=
  h.hotkeyEnabled = none ∧ h.hotkeyCtrl = none ∧ h.hotkeyAlt = none ∧
    h.hotkeyShift = none ∧ h.hotkeyWin = none ∧ h.hotkeyKey = none

/-- The same hotkey blob with the legacy alias fields dropped — the shape
re-encoding can at most produce. -/
def HotkeyJson.stripLegacy (h : HotkeyJson) : HotkeyJson :=
  { enabled := h.enabled, ctrl := h.ctrl, alt := h.alt, shift := h.shift,
    win := h.win, keyCode := h.keyCode }

lemma fillButtonDeviceInfo_effects_shape (env : AudioEnv)
    (st : ButtonSettings) (ctx : String) :
    (FillButtonDeviceInfo env st ctx).2 = [] ∨
      (FillButtonDeviceInfo env st ctx).2
        = [Effect.setSettings (FillButtonDeviceInfo env st ctx).1 ctx] := by
  simp only [FillButtonDeviceInfo]
  split
  · right
    rfl
  · left
    rfl

lemma lookup_mem_nodup {l : List (String × Button)} {k : String} {b : Button}
    (hnd : (l.map Prod.fst).Nodup) (hmem : (k, b) ∈ l) :
    List.lookup k l = some b := by
  induction l with
  | nil => cases hmem
  | cons e tl ih =>
    rcases e with ⟨k', b'⟩
    rcases List.mem_cons.mp hmem with heq | htl
    · cases heq
      simp [List.lookup]
    · have hk : k ≠ k' := by
        intro h
        subst h
        exact (List.nodup_cons.mp hnd).1
          (List.mem_map.mpr ⟨(k, b), htl, rfl⟩)
      have hbeq : (k == k') = false := by simp [hk]
      simp only [List.lookup, hbeq]
      exact ih (List.nodup_cons.mp hnd).2 htl

lemma setButton_lookup_eq {l : Buttons} {k : String} {b : Button}
    (h : List.lookup k l = some b) : setButton l k b = l := by
  induction l with
  | nil => simp [List.lookup] at h
  | cons e tl ih =>
    rcases e with ⟨k', b'⟩
    by_cases hk : k = k'
    · subst hk
      simp [List.lookup] at h
      simp [setButton, h]
    · have hbeq : (k == k') = false := by simp [hk]
      simp only [List.lookup, hbeq] at h
      simp [setButton, Ne.symm hk, ih h]

lemma getButton_lookup_eq {l : Buttons} {k : String} {b : Button}
    (h : List.lookup k l = some b) : getButton l k = b := by
  simp [getButton, h]

lemma updateState_fst (env : AudioEnv) (buttons : Buttons)
    (ctx dev : String) :
    (UpdateState env buttons ctx dev).1
      = setButton buttons ctx (getButton buttons ctx) := by
  simp only [UpdateState]
  repeat' split
  all_goals rfl

lemma updateState_fst_of_lookup {env : AudioEnv} {buttons : Buttons}
    {ctx : String} {b : Button} (dev : String)
    (h : List.lookup ctx buttons = some b) :
    (UpdateState env buttons ctx dev).1 = buttons := by
  rw [updateState_fst, getButton_lookup_eq h, setButton_lookup_eq h]

lemma onDefaultDeviceChanged_fold (env : AudioEnv) (buttons : Buttons)
    (direction : AudioDeviceDirection) (role : AudioDeviceRole)
    (dev : String) (hnd : (buttons.map Prod.fst).Nodup) :
    ∀ (l : List (String × Button)) (acc : Buttons × List Effect),
      acc.1 = buttons → (∀ e ∈ l, e ∈ buttons) →
      l.foldl (fun acc entry =>
        if entry.2.settings.direction ≠ direction then acc
        else if entry.2.settings.role ≠ role then acc
        else
          let step := UpdateState env acc.1 entry.1 dev
          (step.1, acc.2 ++ step.2)) acc
      = (buttons, acc.2 ++ (l.filter (fun e =>
          decide (e.2.settings.direction = direction ∧
            e.2.settings.role = role))).flatMap
          (fun e => (UpdateState env buttons e.1 dev).2)) := by
  intro l
  induction l with
  | nil =>
    intro acc h1 _
    cases acc
    simp_all
  | cons e tl ih =>
    intro acc h1 h2
    have hsub : ∀ x ∈ tl, x ∈ buttons :=
      fun x hx => h2 x (List.mem_cons_of_mem _ hx)
    rcases acc with ⟨accb, acce⟩
    simp only at h1
    subst h1
    by_cases hdir : e.2.settings.direction = direction
    · by_cases hrole : e.2.settings.role = role
      · have hmem : (e.1, e.2) ∈ accb := h2 e (List.mem_cons_self _ _)
        have hlook : List.lookup e.1 accb = some e.2 :=
          lookup_mem_nodup hnd hmem
        have hfst : (UpdateState env accb e.1 dev).1 = accb :=
          updateState_fst_of_lookup dev hlook
        have hpos : decide (e.2.settings.direction = direction ∧
            e.2.settings.role = role) = true := by
          simp [hdir, hrole]
        simp only [List.foldl_cons, if_neg (not_not_intro hdir),
          if_neg (not_not_intro hrole)]
        have := ih ((UpdateState env accb e.1 dev).1,
          acce ++ (UpdateState env accb e.1 dev).2) (by rw [hfst]) hsub
        rw [this]
        simp only [List.filter_cons, decide_eq_true_eq]
        rw [if_pos ⟨hdir, hrole⟩, List.flatMap_cons]
        simp [List.append_assoc]
      · simp only [List.foldl_cons, if_neg (not_not_intro hdir),
          if_pos hrole]
        rw [ih (accb, acce) rfl hsub]
        simp only [List.filter_cons, decide_eq_true_eq]
        rw [if_neg (fun h => hrole h.2)]
    · simp only [List.foldl_cons, if_pos hdir]
      rw [ih (accb, acce) rfl hsub]
      simp only [List.filter_cons, decide_eq_true_eq]
      rw [if_neg (fun h => hdir h.1)]

/-- C1: under the Fuzzy strategy, resolution of a descriptor with a
non-empty id proceeds exactly as specified: return the id when its device
is currently connected, otherwise return the id of the first connected
same-direction device whose normalized interface name (ordinal prefix
stripped) and exact endpoint name match, and fall back to the original id;
in particular the scenario descriptor `devC1` resolves to `"B"` against
`envC1`. -/
theorem getVolatileID_fuzzy_spec :
    (∀ (env : AudioEnv) (device : AudioDeviceInfo), device.id ≠ "" →
      GetVolatileID env device DeviceMatchStrategy.Fuzzy
        = resolveFuzzySpec env device)
    ∧ GetVolatileID envC1 devC1 DeviceMatchStrategy.Fuzzy = "B" := by
  constructor
  · intro env device hid
    simp only [GetVolatileID, resolveFuzzySpec, if_neg hid,
      if_neg (show ¬(DeviceMatchStrategy.Fuzzy = DeviceMatchStrategy.ID)
        from by decide)]
    by_cases hc : env.deviceState device.id = AudioDeviceState.CONNECTED
    · rw [if_pos hc, if_pos hc]
    · rw [if_neg hc, if_neg hc]
      have hpred : (fun (other : String × AudioDeviceInfo) =>
          decide (other.2.state = AudioDeviceState.CONNECTED ∧
            FuzzifyInterface other.2.interfaceName
              = FuzzifyInterface device.interfaceName ∧
            device.endpointName = other.2.endpointName))
          = (fun (cand : String × AudioDeviceInfo) =>
          decide (cand.2.state = AudioDeviceState.CONNECTED ∧
            FuzzifyInterface cand.2.interfaceName
              = FuzzifyInterface device.interfaceName ∧
            cand.2.endpointName = device.endpointName)) := by
        funext p
        refine decide_eq_decide.mpr ?_
        constructor
        · rintro ⟨a, b, c⟩
          exact ⟨a, b, c.symm⟩
        · rintro ⟨a, b, c⟩
          exact ⟨a, b, c.symm⟩
      rw [hpred]
  · decide

/-- C1 witness: the general part of `getVolatileID_fuzzy_spec` applied to
the concrete scenario descriptor. -/
theorem getVolatileID_fuzzy_spec_witness :
    GetVolatileID envC1 devC1 DeviceMatchStrategy.Fuzzy
      = resolveFuzzySpec envC1 devC1 :=
  getVolatileID_fuzzy_spec.1 envC1 devC1 (by decide)

/-- C2: the key-up handler's target slot: the primary device and primary
hotkey whenever the action is the Set action or the reported state is
nonzero, the secondary device and secondary hotkey otherwise; hence
Toggle with state 1 picks primary, Toggle with state 0 picks secondary,
and Set always picks primary. -/
theorem keyUp_target_slot_choice :
    ∀ (env : AudioEnv) (settings : ButtonSettings) (inAction : String)
      (state : Int),
      (pickTargetDeviceID env settings inAction state
        = if inAction = SET_ACTION_ID ∨ state ≠ 0 then
            settings.VolatilePrimaryID env
          else settings.VolatileSecondaryID env)
      ∧ (pickTargetHotkey settings inAction state
        = if inAction = SET_ACTION_ID ∨ state ≠ 0 then
            settings.primaryHotkey
          else settings.secondaryHotkey)
      ∧ pickTargetDeviceID env settings TOGGLE_ACTION_ID 1
          = settings.VolatilePrimaryID env
      ∧ pickTargetDeviceID env settings TOGGLE_ACTION_ID 0
          = settings.VolatileSecondaryID env
      ∧ pickTargetHotkey settings TOGGLE_ACTION_ID 1
          = settings.primaryHotkey
      ∧ pickTargetHotkey settings TOGGLE_ACTION_ID 0
          = settings.secondaryHotkey
      ∧ pickTargetDeviceID env settings SET_ACTION_ID state
          = settings.VolatilePrimaryID env
      ∧ pickTargetHotkey settings SET_ACTION_ID state
          = settings.primaryHotkey := by
  intro env settings inAction state
  have htoggle : ¬(TOGGLE_ACTION_ID = SET_ACTION_ID) := by decide
  refine ⟨?_, ?_, ?_, ?_, ?_, ?_, ?_, ?_⟩
  · simp only [pickTargetDeviceID]
    exact if_congr or_comm rfl rfl
  · simp only [pickTargetHotkey]
    exact if_congr or_comm rfl rfl
  · simp only [pickTargetDeviceID]
    rw [if_pos (Or.inl (by decide))]
  · simp only [pickTargetDeviceID]
    rw [if_neg ?_]
    rintro (h | h)
    · exact h rfl
    · exact htoggle h
  · simp only [pickTargetHotkey]
    rw [if_pos (Or.inl (by decide))]
  · simp only [pickTargetHotkey]
    rw [if_neg ?_]
    rintro (h | h)
    · exact h rfl
    · exact htoggle h
  · simp [pickTargetDeviceID]
  · simp [pickTargetHotkey]

/-- In the Windows body, a hotkey whose key name resolves to no
virtual-key code is a silent no-op — `TriggerHotkey` sends no input at
all. -/
theorem triggerHotkey_unknown_key_noop :
    ∀ (vkKeyScan : Char → Int) (hotkey : HotkeyConfig),
      resolveVkCode vkKeyScan hotkey.keyCode = 0 →
      TriggerHotkey vkKeyScan hotkey = [] := by
  intro f hk h
  by_cases he : ¬hk.enabled ∨ hk.keyCode = ""
  · simp only [TriggerHotkey, if_pos he]
  · simp only [TriggerHotkey, if_neg he, h]
    simp

/-- Instance of `triggerHotkey_unknown_key_noop`: the enabled hotkey
`hk7` with unresolvable key name `"!!"` injects nothing. -/
theorem triggerHotkey_unknown_key_noop_witness :
    TriggerHotkey vkScan7 hk7 = [] :=
  triggerHotkey_unknown_key_noop vkScan7 hk7 (by decide)

/-- C10: the key-down handler performs no observable action: the button
collection is unchanged and no effect is emitted, for every input. -/
theorem keyDown_no_effects :
    ∀ (buttons : Buttons) (inAction inContext : String)
      (inPayload : KeyPayload) (inDeviceID : String),
      KeyDownForAction buttons inAction inContext inPayload inDeviceID
        = (buttons, []) := by
  intro buttons inAction inContext inPayload inDeviceID
  rfl

/-- C6: settings decode fails softly — with `direction` absent the decode
is a complete no-op even when other fields are present; with `direction`
present it is stored, and every absent field keeps its C++ default. -/
theorem from_json_soft_fail :
    ∀ (j : ButtonSettingsJson) (bs : ButtonSettings),
      (j.direction = none → from_json_ButtonSettings j bs = bs)
      ∧ (∀ d, j.direction = some d →
          (from_json_ButtonSettings j bs).direction = d)
      ∧ (j.role = none →
          (from_json_ButtonSettings j ({} : ButtonSettings)).role
            = AudioDeviceRole.DEFAULT)
      ∧ (j.primary = none →
          (from_json_ButtonSettings j ({} : ButtonSettings)).primaryDevice
            = ({} : AudioDeviceInfo))
      ∧ (j.secondary = none →
          (from_json_ButtonSettings j ({} : ButtonSettings)).secondaryDevice
            = ({} : AudioDeviceInfo))
      ∧ (j.matchStrategy = none →
          (from_json_ButtonSettings j ({} : ButtonSettings)).matchStrategy
            = DeviceMatchStrategy.ID)
      ∧ (j.primaryHotkey = none → j.hotkey = none →
          (from_json_ButtonSettings j ({} : ButtonSettings)).primaryHotkey
            = ({} : HotkeyConfig))
      ∧ (j.secondaryHotkey = none →
          (from_json_ButtonSettings j ({} : ButtonSettings)).secondaryHotkey
            = ({} : HotkeyConfig)) := by
  intro j bs
  refine ⟨?_, ?_, ?_, ?_, ?_, ?_, ?_, ?_⟩
  · intro h
    simp [from_json_ButtonSettings, h]
  · intro d hd
    simp [from_json_ButtonSettings, hd]
  · intro h
    rcases hd : j.direction with _ | d
    · simp [from_json_ButtonSettings, hd]
    · simp [from_json_ButtonSettings, hd, h]
  · intro h
    rcases hd : j.direction with _ | d
    · simp [from_json_ButtonSettings, hd]
    · simp [from_json_ButtonSettings, hd, h]
  · intro h
    rcases hd : j.direction with _ | d
    · simp [from_json_ButtonSettings, hd]
    · simp [from_json_ButtonSettings, hd, h]
  · intro h
    rcases hd : j.direction with _ | d
    · simp [from_json_ButtonSettings, hd]
    · simp [from_json_ButtonSettings, hd, h]
  · intro h1 h2
    rcases hd : j.direction with _ | d
    · simp [from_json_ButtonSettings, hd]
    · simp [from_json_ButtonSettings, hd, h1, h2]
  · intro h
    rcases hd : j.direction with _ | d
    · simp [from_json_ButtonSettings, hd]
    · simp [from_json_ButtonSettings, hd, h]

/-- C6 witness: the direction-free blob `blob6` leaves the non-default
settings `bs6` untouched, and the direction-only blob `blob6b` decodes
with the default role. -/
theorem from_json_soft_fail_witness :
    from_json_ButtonSettings blob6 bs6 = bs6
      ∧ (from_json_ButtonSettings blob6b ({} : ButtonSettings)).role
          = AudioDeviceRole.DEFAULT :=
  ⟨(from_json_soft_fail blob6 bs6).1 rfl,
    (from_json_soft_fail blob6b {}).2.2.1 rfl⟩

/-- C8: on a fully-populated canonical blob (every canonical field
present, device slots in full-descriptor form, hotkeys carrying all six
canonical subfields), `encode ∘ decode` reproduces the blob field for
field, with the hotkey sub-blobs reproduced on their canonical subfields
and stripped of legacy aliases; and encoding never emits a legacy alias
field for any settings value. -/
theorem encode_decode_roundtrip :
    (∀ (j : ButtonSettingsJson) (d : AudioDeviceDirection)
        (r : AudioDeviceRole) (p s : AudioDeviceInfo)
        (m : DeviceMatchStrategy) (ph sh : HotkeyJson)
        (eb cb ab sb wb : Bool) (kc : String)
        (eb2 cb2 ab2 sb2 wb2 : Bool) (kc2 : String),
      j.direction = some d → j.role = some r →
      j.primary = some (DeviceJson.obj p) →
      j.secondary = some (DeviceJson.obj s) →
      j.matchStrategy = some m →
      j.primaryHotkey = some ph → j.secondaryHotkey = some sh →
      ph.enabled = some eb → ph.ctrl = some cb → ph.alt = some ab →
      ph.shift = some sb → ph.win = some wb → ph.keyCode = some kc →
      sh.enabled = some eb2 → sh.ctrl = some cb2 → sh.alt = some ab2 →
      sh.shift = some sb2 → sh.win = some wb2 → sh.keyCode = some kc2 →
      to_json_ButtonSettings (from_json_ButtonSettings j {})
        = { direction := j.direction
            role := j.role
            primary := j.primary
            secondary := j.secondary
            matchStrategy := j.matchStrategy
            primaryHotkey := j.primaryHotkey.map HotkeyJson.stripLegacy
            hotkey := none
            secondaryHotkey := j.secondaryHotkey.map HotkeyJson.stripLegacy })
    ∧ (∀ bs : ButtonSettings,
        (to_json_ButtonSettings bs).hotkey = none
        ∧ (∀ h, (to_json_ButtonSettings bs).primaryHotkey = some h →
            h.noLegacy)
        ∧ (∀ h, (to_json_ButtonSettings bs).secondaryHotkey = some h →
            h.noLegacy)) := by
  constructor
  · intro j d r p s m ph sh eb cb ab sb wb kc eb2 cb2 ab2 sb2 wb2 kc2
      hd hr hp hs hm hph hsh he1 hc1 ha1 hs1 hw1 hk1 he2 hc2 ha2 hs2 hw2 hk2
    simp only [from_json_ButtonSettings, to_json_ButtonSettings,
      from_json_HotkeyConfig, to_json_HotkeyConfig,
      hd, hr, hp, hs, hm, hph, hsh, he1, hc1, ha1, hs1, hw1, hk1,
      he2, hc2, ha2, hs2, hw2, hk2]
    simp [HotkeyJson.stripLegacy, he1, hc1, ha1, hs1, hw1, hk1,
      he2, hc2, ha2, hs2, hw2, hk2]
  · intro bs
    refine ⟨rfl, ?_, ?_⟩
    · intro h hh
      cases hh.symm.trans (rfl :
        (to_json_ButtonSettings bs).primaryHotkey
          = some (to_json_HotkeyConfig bs.primaryHotkey))
      exact ⟨rfl, rfl, rfl, rfl, rfl, rfl⟩
    · intro h hh
      cases hh.symm.trans (rfl :
        (to_json_ButtonSettings bs).secondaryHotkey
          = some (to_json_HotkeyConfig bs.secondaryHotkey))
      exact ⟨rfl, rfl, rfl, rfl, rfl, rfl⟩

/-- C8 witness: the round trip applied to the concrete fully-populated
blob `blob8`. -/
theorem encode_decode_roundtrip_witness :
    to_json_ButtonSettings (from_json_ButtonSettings blob8 {})
      = { direction := blob8.direction
          role := blob8.role
          primary := blob8.primary
          secondary := blob8.secondary
          matchStrategy := blob8.matchStrategy
          primaryHotkey := blob8.primaryHotkey.map HotkeyJson.stripLegacy
          hotkey := none
          secondaryHotkey :=
            blob8.secondaryHotkey.map HotkeyJson.stripLegacy } :=
  encode_decode_roundtrip.1 blob8 AudioDeviceDirection.OUTPUT
    AudioDeviceRole.COMMUNICATION
    { id := "A", interfaceName := "If1", endpointName := "Ep1",
      displayName := "Dev1", direction := AudioDeviceDirection.OUTPUT,
      state := AudioDeviceState.CONNECTED }
    { id := "B", interfaceName := "If2", endpointName := "Ep2",
      displayName := "Dev2", direction := AudioDeviceDirection.OUTPUT,
      state := AudioDeviceState.DEVICE_DISABLED }
    DeviceMatchStrategy.Fuzzy ph8 sh8
    true true false true false "F5" false false true false true "SPACE"
    rfl rfl rfl rfl rfl rfl rfl rfl rfl rfl rfl rfl rfl rfl rfl rfl rfl
    rfl rfl

/-- C9: after decode, a device descriptor with a non-empty id but empty
display name whose id is found in the live list for its direction is
replaced by the full live record and a persist request (`SetSettings`) is
emitted; when neither slot is backfilled, no persist request is
emitted. -/
theorem fillButtonDeviceInfo_backfill :
    ∀ (env : AudioEnv) (st : ButtonSettings) (ctx : String),
      (∀ dev, st.primaryDevice.id ≠ "" →
        st.primaryDevice.displayName = "" →
        List.lookup st.primaryDevice.id
            (env.deviceList st.primaryDevice.direction) = some dev →
        (FillButtonDeviceInfo env st ctx).1.primaryDevice = dev ∧
          (FillButtonDeviceInfo env st ctx).2
            = [Effect.setSettings (FillButtonDeviceInfo env st ctx).1 ctx])
      ∧ (∀ dev, st.secondaryDevice.id ≠ "" →
          st.secondaryDevice.displayName = "" →
          List.lookup st.secondaryDevice.id
              (env.deviceList st.secondaryDevice.direction) = some dev →
          (FillButtonDeviceInfo env st ctx).1.secondaryDevice = dev ∧
            (FillButtonDeviceInfo env st ctx).2
              = [Effect.setSettings (FillButtonDeviceInfo env st ctx).1
                  ctx])
      ∧ ((FillAudioDeviceInfo env st.primaryDevice).2 = false →
          (FillAudioDeviceInfo env st.secondaryDevice).2 = false →
          (FillButtonDeviceInfo env st ctx).2 = []) := by
  intro env st ctx
  refine ⟨?_, ?_, ?_⟩
  · intro dev h1 h2 h3
    constructor
    · simp [FillButtonDeviceInfo, FillAudioDeviceInfo, h1, h2, h3]
    · simp [FillButtonDeviceInfo, FillAudioDeviceInfo, h1, h2, h3]
  · intro dev h1 h2 h3
    constructor
    · simp [FillButtonDeviceInfo, FillAudioDeviceInfo, h1, h2, h3]
    · simp [FillButtonDeviceInfo, FillAudioDeviceInfo, h1, h2, h3]
  · intro hfp hfs
    simp [FillButtonDeviceInfo, hfp, hfs]

/-- C9 witness: the backfill applied to `st9` against `env9`, whose
output list holds the full record `dev9` under the configured id. -/
theorem fillButtonDeviceInfo_backfill_witness :
    (FillButtonDeviceInfo env9 st9 "c").1.primaryDevice = dev9 ∧
      (FillButtonDeviceInfo env9 st9 "c").2
        = [Effect.setSettings (FillButtonDeviceInfo env9 st9 "c").1 "c"] :=
  (fillButtonDeviceInfo_backfill env9 st9 "c").1 dev9 (by decide) rfl
    (by decide)

/-- C5: when the resolved target id is non-empty but its device state is
not Connected, the key-up handler emits an alert (preceded, for the Set
action, by forcing reported state 1), never touches the OS default
device, injects no hotkey, and for non-Set actions touches no reported
state at all. -/
theorem keyUp_disconnected_target_alert
    (env : AudioEnv) (buttons : Buttons)
    (inAction inContext inDeviceID : String) (inPayload : KeyPayload)
    (blob : ButtonSettingsJson)
    (hset : inPayload.settings = some blob)
    (hne : pickTargetDeviceID env
        (FillButtonDeviceInfo env (from_json_ButtonSettings blob {})
          inContext).1 inAction inPayload.state ≠ "")
    (hdisc : env.deviceState (pickTargetDeviceID env
        (FillButtonDeviceInfo env (from_json_ButtonSettings blob {})
          inContext).1 inAction inPayload.state)
        ≠ AudioDeviceState.CONNECTED) :
    (KeyUpForAction env buttons inAction inContext inPayload inDeviceID).2
      = (FillButtonDeviceInfo env (from_json_ButtonSettings blob {})
          inContext).2
        ++ (if inAction = SET_ACTION_ID then [Effect.setState 1 inContext]
            else [])
        ++ [Effect.showAlert inContext]
    ∧ (∀ d r i, Effect.setDefaultDevice d r i
        ∉ (KeyUpForAction env buttons inAction inContext inPayload
            inDeviceID).2)
    ∧ (∀ hk, Effect.triggerHotkey hk
        ∉ (KeyUpForAction env buttons inAction inContext inPayload
            inDeviceID).2)
    ∧ (inAction ≠ SET_ACTION_ID → ∀ n c, Effect.setState n c
        ∉ (KeyUpForAction env buttons inAction inContext inPayload
            inDeviceID).2) := by
  have hmain : (KeyUpForAction env buttons inAction inContext inPayload
      inDeviceID).2
      = (FillButtonDeviceInfo env (from_json_ButtonSettings blob {})
          inContext).2
        ++ (if inAction = SET_ACTION_ID then [Effect.setState 1 inContext]
            else [])
        ++ [Effect.showAlert inContext] := by
    simp only [KeyUpForAction, hset]
    rw [if_neg hne, if_pos hdisc]
  refine ⟨hmain, ?_, ?_, ?_⟩
  · intro d r i
    rw [hmain]
    rcases fillButtonDeviceInfo_effects_shape env
        (from_json_ButtonSettings blob {}) inContext with hf | hf <;>
      rw [hf] <;> by_cases hact : inAction = SET_ACTION_ID <;>
      simp [hact]
  · intro hk
    rw [hmain]
    rcases fillButtonDeviceInfo_effects_shape env
        (from_json_ButtonSettings blob {}) inContext with hf | hf <;>
      rw [hf] <;> by_cases hact : inAction = SET_ACTION_ID <;>
      simp [hact]
  · intro hact n c
    rw [hmain]
    rcases fillButtonDeviceInfo_effects_shape env
        (from_json_ButtonSettings blob {}) inContext with hf | hf <;>
      rw [hf] <;> simp [hact]

/-- C5 witness: a toggle button targeting the configured but absent
device `A` in an environment with no devices alerts without touching
anything else. -/
theorem keyUp_disconnected_target_alert_witness :
    (KeyUpForAction env5 [] TOGGLE_ACTION_ID "c" payload5 "").2
      = (FillButtonDeviceInfo env5 (from_json_ButtonSettings blob3 {})
          "c").2
        ++ (if TOGGLE_ACTION_ID = SET_ACTION_ID then
              [Effect.setState 1 "c"] else [])
        ++ [Effect.showAlert "c"] :=
  (keyUp_disconnected_target_alert env5 [] TOGGLE_ACTION_ID "c" ""
    payload5 blob3 rfl (by decide) (by decide)).1

/-- C3 counterexample: a Set activation whose target `A` is connected and
already the default, with reported state 1, re-emits state 1 — it does
not reconcile the state to the value designating the current default,
which (the default being the primary volatile id) is 0. -/
theorem keyUp_set_idempotence_cex :
    (KeyUpForAction env3 [] SET_ACTION_ID "ctx" payload3 "").2
      = [Effect.setState 1 "ctx"]
    ∧ (FillButtonDeviceInfo env3 (from_json_ButtonSettings blob3 {})
        "ctx").1 = s3
    ∧ s3.VolatilePrimaryID env3
        = env3.defaultDevice s3.direction s3.role
    ∧ Effect.setState 0 "ctx"
        ∉ (KeyUpForAction env3 [] SET_ACTION_ID "ctx" payload3 "").2 := by
  refine ⟨by decide, by decide, by decide, by decide⟩

/-- C3 as amended: for a Set activation with a non-empty, connected
target id equal to the current OS default, the handler performs no
device switch and injects no hotkey; the single state effect it emits
restores the state reported in the payload (undoing the host's automatic
state change) rather than a value recomputed from the current
default. -/
theorem keyUp_set_idempotence_short_circuit
    (env : AudioEnv) (buttons : Buttons)
    (inContext inDeviceID : String) (inPayload : KeyPayload)
    (blob : ButtonSettingsJson)
    (hset : inPayload.settings = some blob)
    (hne : pickTargetDeviceID env
        (FillButtonDeviceInfo env (from_json_ButtonSettings blob {})
          inContext).1 SET_ACTION_ID inPayload.state ≠ "")
    (hconn : env.deviceState (pickTargetDeviceID env
        (FillButtonDeviceInfo env (from_json_ButtonSettings blob {})
          inContext).1 SET_ACTION_ID inPayload.state)
        = AudioDeviceState.CONNECTED)
    (hdef : pickTargetDeviceID env
        (FillButtonDeviceInfo env (from_json_ButtonSettings blob {})
          inContext).1 SET_ACTION_ID inPayload.state
        = env.defaultDevice
            (FillButtonDeviceInfo env (from_json_ButtonSettings blob {})
              inContext).1.direction
            (FillButtonDeviceInfo env (from_json_ButtonSettings blob {})
              inContext).1.role) :
    (KeyUpForAction env buttons SET_ACTION_ID inContext inPayload
        inDeviceID).2
      = (FillButtonDeviceInfo env (from_json_ButtonSettings blob {})
          inContext).2
        ++ [Effect.setState inPayload.state inContext]
    ∧ (∀ d r i, Effect.setDefaultDevice d r i
        ∉ (KeyUpForAction env buttons SET_ACTION_ID inContext inPayload
            inDeviceID).2)
    ∧ (∀ hk, Effect.triggerHotkey hk
        ∉ (KeyUpForAction env buttons SET_ACTION_ID inContext inPayload
            inDeviceID).2)
    ∧ (∀ c, Effect.showAlert c
        ∉ (KeyUpForAction env buttons SET_ACTION_ID inContext inPayload
            inDeviceID).2) := by
  have hmain : (KeyUpForAction env buttons SET_ACTION_ID inContext
      inPayload inDeviceID).2
      = (FillButtonDeviceInfo env (from_json_ButtonSettings blob {})
          inContext).2
        ++ [Effect.setState inPayload.state inContext] := by
    simp only [KeyUpForAction, hset]
    rw [if_neg hne, if_neg (not_not_intro hconn), if_pos ⟨trivial, hdef⟩]
  refine ⟨hmain, ?_, ?_, ?_⟩
  · intro d r i
    rw [hmain]
    rcases fillButtonDeviceInfo_effects_shape env
        (from_json_ButtonSettings blob {}) inContext with hf | hf <;>
      rw [hf] <;> simp
  · intro hk
    rw [hmain]
    rcases fillButtonDeviceInfo_effects_shape env
        (from_json_ButtonSettings blob {}) inContext with hf | hf <;>
      rw [hf] <;> simp
  · intro c
    rw [hmain]
    rcases fillButtonDeviceInfo_effects_shape env
        (from_json_ButtonSettings blob {}) inContext with hf | hf <;>
      rw [hf] <;> simp

/-- C3 witness: the amended short-circuit applied to the concrete
idempotent Set activation. -/
theorem keyUp_set_idempotence_short_circuit_witness :
    (KeyUpForAction env3 [] SET_ACTION_ID "ctx" payload3 "").2
      = (FillButtonDeviceInfo env3 (from_json_ButtonSettings blob3 {})
          "ctx").2
        ++ [Effect.setState payload3.state "ctx"] :=
  (keyUp_set_idempotence_short_circuit env3 [] "ctx" "" payload3 blob3
    rfl (by decide) (by decide) (by decide)).1

/-- C4 counterexample: a Set-action button whose live default `X` equals
neither slot's volatile id receives state 1, not the alert the claim
requires for every action kind. -/
theorem updateState_alert_cex :
    (UpdateState env4 btns4 "c" "").2 = [Effect.setState 1 "c"]
    ∧ Effect.showAlert "c" ∉ (UpdateState env4 btns4 "c" "").2
    ∧ (getButton btns4 "c").settings = s4
    ∧ env4.defaultDevice s4.direction s4.role
        ≠ s4.VolatilePrimaryID env4
    ∧ env4.defaultDevice s4.direction s4.role
        ≠ s4.VolatileSecondaryID env4 := by
  refine ⟨by decide, by decide, by decide, by decide, by decide⟩

/-- C4 as amended: visual reconciliation reports state 0 when the live
default equals the primary volatile id; otherwise a Toggle-kind button
reports 1 when it equals the secondary volatile id and alerts when it
equals neither, while a Set-kind button always reports 1 and never
alerts.  A default-device-changed notification runs exactly this
reconciliation for every registered button matching the changed
direction and role, and a button appearance with settings runs it for
that button. -/
theorem updateState_reconciliation_rule :
    (∀ (env : AudioEnv) (buttons : Buttons) (ctx dev : String),
      (UpdateState env buttons ctx dev).2 =
        if (getButton buttons ctx).action = SET_ACTION_ID then
          [Effect.setState
            (if (if dev = "" then
                  env.defaultDevice
                    (getButton buttons ctx).settings.direction
                    (getButton buttons ctx).settings.role
                 else dev)
                = (getButton buttons ctx).settings.VolatilePrimaryID env
             then 0 else 1) ctx]
        else if (if dev = "" then
                  env.defaultDevice
                    (getButton buttons ctx).settings.direction
                    (getButton buttons ctx).settings.role
                 else dev)
                = (getButton buttons ctx).settings.VolatilePrimaryID env
          then [Effect.setState 0 ctx]
        else if (if dev = "" then
                  env.defaultDevice
                    (getButton buttons ctx).settings.direction
                    (getButton buttons ctx).settings.role
                 else dev)
                = (getButton buttons ctx).settings.VolatileSecondaryID env
          then [Effect.setState 1 ctx]
        else [Effect.showAlert ctx])
    ∧ (∀ (env : AudioEnv) (buttons : Buttons)
        (direction : AudioDeviceDirection) (role : AudioDeviceRole)
        (dev : String), (buttons.map Prod.fst).Nodup →
        OnDefaultDeviceChanged env buttons direction role dev
          = (buttons, (buttons.filter (fun e =>
              decide (e.2.settings.direction = direction ∧
                e.2.settings.role = role))).flatMap
              (fun e => (UpdateState env buttons e.1 dev).2)))
    ∧ (∀ (env : AudioEnv) (buttons : Buttons)
        (inAction inContext inDeviceID : String) (inPayload : KeyPayload)
        (blob : ButtonSettingsJson), inPayload.settings = some blob →
        (WillAppearForAction env buttons inAction inContext inPayload
            inDeviceID).2
          = (UpdateState env
              (setButton (setButton buttons inContext
                  { action := inAction, context := inContext })
                inContext
                { action := inAction, context := inContext,
                  settings := from_json_ButtonSettings blob {} })
              inContext "").2
            ++ (FillButtonDeviceInfo env
                (from_json_ButtonSettings blob {}) inContext).2) := by
  refine ⟨?_, ?_, ?_⟩
  · intro env buttons ctx dev
    simp only [UpdateState]
    repeat' split
    all_goals rfl
  · intro env buttons direction role dev hnd
    have h := onDefaultDeviceChanged_fold env buttons direction role dev
      hnd buttons (buttons, []) rfl (fun e he => he)
    simp only [OnDefaultDeviceChanged]
    rw [h]
    simp
  · intro env buttons inAction inContext inDeviceID inPayload blob hset
    simp only [WillAppearForAction, hset]

/-- C4 witness: the notification fan-out applied to the one-button
registry `btns4`, and the appearance reconciliation applied to a
concrete toggle button. -/
theorem updateState_reconciliation_rule_witness :
    OnDefaultDeviceChanged env4 btns4 AudioDeviceDirection.OUTPUT
        AudioDeviceRole.DEFAULT "X"
      = (btns4, (btns4.filter (fun e =>
          decide (e.2.settings.direction = AudioDeviceDirection.OUTPUT ∧
            e.2.settings.role = AudioDeviceRole.DEFAULT))).flatMap
          (fun e => (UpdateState env4 btns4 e.1 "X").2))
    ∧ (WillAppearForAction env3 [] TOGGLE_ACTION_ID "w" payload3 "").2
      = (UpdateState env3
          (setButton (setButton [] "w"
              { action := TOGGLE_ACTION_ID, context := "w" })
            "w"
            { action := TOGGLE_ACTION_ID, context := "w",
              settings := from_json_ButtonSettings blob3 {} })
          "w" "").2
        ++ (FillButtonDeviceInfo env3 (from_json_ButtonSettings blob3 {})
            "w").2 :=
  ⟨updateState_reconciliation_rule.2.1 env4 btns4
      AudioDeviceDirection.OUTPUT AudioDeviceRole.DEFAULT "X" (by decide),
    updateState_reconciliation_rule.2.2 env3 [] TOGGLE_ACTION_ID "w" ""
      payload3 blob3 rfl⟩

/-- C7: the silent-no-op requirement fails on the code's macOS body —
the enabled hotkey `hk7x` with key name `"FX"` (non-empty, starting with
`F`, non-numeric suffix) makes the unguarded `std::stoi` of
`TriggerHotkeyMac` raise `std::invalid_argument` out of the function,
while the very same input resolves to no virtual-key code and is a
silent no-op in the guarded Windows body, which implements the
documented intent. -/
theorem triggerHotkey_fkey_parse_bug :
    TriggerHotkeyMac hk7x = Except.error "std::invalid_argument"
    ∧ hk7x.enabled = true
    ∧ hk7x.keyCode ≠ ""
    ∧ resolveVkCode vkScan7 hk7x.keyCode = 0
    ∧ (∀ vkKeyScan : Char → Int, TriggerHotkey vkKeyScan hk7x = []) := by
  refine ⟨rfl, rfl, by decide, by decide, ?_⟩
  intro vkKeyScan
  rfl
